import Mathlib

/-!
Verification of src/scripts/fetch_eufy_weight.py against its specification.

The script is a linear fetch/normalize/persist pipeline over loosely-typed
JSON.  The embedding below models Python JSON values as an inductive type
(JVal), Python dicts as insertion-ordered association lists, Python floats
as exact rationals, and the filesystem snapshot as an explicit state value
threaded through an embedded main.  Network responses and the current time
are inputs of the embedded main, since the script receives them from the
outside world.
-/

/-- A Python JSON value as produced by json.loads: json.loads keeps the
int/float distinction, and Python bools are a subclass of int, so the model
keeps all three apart.  Python floats are modelled as exact rationals. -/
inductive JVal where
  | jnull
  | jbool (b : Bool)
  | jint (n : Int)
  | jfloat (q : Rat)
  | jstr (s : String)
  | jarr (xs : List JVal)
  | jobj (fields : List (String × JVal))

/-- A Python dict with string keys, as an insertion-ordered association
list (CPython dicts preserve insertion order, which the traversal in
_iter_dicts and the join over d.values() observe). -/
def PyDict := List (String × JVal)

/-- Models d.get(key): the value under the first matching key, None when
absent. -/
def dictGet (d : PyDict) (k : String) : JVal :=
  match d.find? (fun p => p.1 == k) with
  | some p => p.2
  | none => JVal.jnull

/-- Code-point comparison of character lists, the order Python uses for
its string comparison operators. -/
def charListLt : List Char → List Char → Bool
  | _, [] => false
  | [], _ :: _ => true
  | a :: as, b :: bs =>
    if a.val < b.val then true
    else if b.val < a.val then false
    else charListLt as bs

/-- Models the Python string less-than operator (lexicographic by code
point). -/
def pyStrLt (a b : String) : Bool := charListLt a.toList b.toList

/-- True when pat occurs at the start of s. -/
def charListIsStart : List Char → List Char → Bool
  | _, [] => true
  | [], _ :: _ => false
  | a :: as, b :: bs => a == b && charListIsStart as bs

/-- True when pat occurs contiguously anywhere in s. -/
def charListHasSub (pat : List Char) : List Char → Bool
  | [] => pat.isEmpty
  | c :: rest => charListIsStart (c :: rest) pat || charListHasSub pat rest

/-- Models the Python substring test (pat in s). -/
def pyStrContains (s pat : String) : Bool := charListHasSub pat.toList s.toList

/-- Models the Python whitespace class that str.strip removes (the model
covers the ASCII whitespace characters). -/
def pyIsSpace (c : Char) : Bool :=
  c == ' ' || c == '\t' || c == '\n' || c == '\x0d' || c == '\x0b' || c == '\x0c'

/-- Drops leading whitespace from a character list. -/
def dropSpace : List Char → List Char
  | [] => []
  | c :: r => if pyIsSpace c then dropSpace r else c :: r

/-- Models str.strip(): removes leading and trailing whitespace. -/
def pyStrip (s : String) : String :=
  String.mk (dropSpace (dropSpace s.toList.reverse).reverse)

/-- ASCII lowercase of one character (str.lower on the inputs the claims
touch; the model leaves non-ASCII letters unchanged). -/
def lowerChar (c : Char) : Char :=
  if 65 ≤ c.val && c.val ≤ 90 then Char.ofNat (c.toNat + 32) else c

/-- Models str.lower(). -/
def pyLower (s : String) : String := String.mk (s.toList.map lowerChar)

/-- Models sep.join(parts). -/
def pyJoin (sep : String) : List String → String
  | [] => ""
  | [x] => x
  | x :: y :: rest => x ++ sep ++ pyJoin sep (y :: rest)

/-- Replacement of every occurrence of pat, scanning left to right, on a
fuel argument that makes the recursion structural; the fuel is the length
of the scanned list, which the recursion never exhausts. -/
def replaceCharsF (pat rep : List Char) : Nat → List Char → List Char
  | 0, l => l
  | _ + 1, [] => []
  | fuel + 1, c :: rest =>
    if charListIsStart (c :: rest) pat && !pat.isEmpty then
      rep ++ replaceCharsF pat rep fuel (rest.drop (pat.length - 1))
    else c :: replaceCharsF pat rep fuel rest

/-- Models str.replace(pat, rep): every occurrence is rewritten, leftmost
first. -/
def pyReplace (s pat rep : String) : String :=
  String.mk (replaceCharsF pat.toList rep.toList s.toList.length s.toList)

/-- Models the emptiness test behind Python string truthiness. -/
def strIsEmpty (s : String) : Bool := s.toList.isEmpty


/-- Python truthiness for JSON values: None, False, 0, 0.0, empty string,
empty list and empty dict are falsy. -/
def pyTruthy : JVal → Bool
  | .jnull => false
  | .jbool b => b
  | .jint n => n != 0
  | .jfloat q => q != 0
  | .jstr s => !(strIsEmpty s)
  | .jarr xs => !xs.isEmpty
  | .jobj fs => !fs.isEmpty

/-- Digits of a character list interpreted base 10, given an accumulator. -/
def digitsToNat : Nat → List Char → Nat
  | acc, [] => acc
  | acc, c :: rest => digitsToNat (acc * 10 + (c.val.toNat - 48)) rest

/-- True when the string is nonempty and all ASCII digits, the test
str.isdigit performs on the inputs this script meets (the model omits
non-ASCII Unicode digits). -/
def pyIsDigitStr (s : String) : Bool :=
  !(strIsEmpty s) && s.toList.all (fun c => 48 ≤ c.val && c.val ≤ 57)

/-- Longest ASCII-digit run at the front of a character list, with the rest. -/
def spanDigits : List Char → List Char × List Char
  | [] => ([], [])
  | c :: rest =>
    if 48 ≤ c.val && c.val ≤ 57 then
      let (ds, r) := spanDigits rest
      (c :: ds, r)
  else ([], c :: rest)

/-- Models float(s) for decimal literals: optional sign, digits with an
optional fractional part (at least one digit on one side of the point),
optional exponent, surrounded by optional whitespace.  CPython additionally
accepts inf/nan spellings and underscore digit separators, which this model
rejects; no claim depends on those. -/
def pyFloatOfString (s : String) : Option Rat :=
  let cs := (pyStrip s).toList
  let (sign, cs1) : Rat × List Char :=
    match cs with
    | '+' :: r => (1, r)
    | '-' :: r => (-1, r)
    | r => (1, r)
  let (intDs, r1) := spanDigits cs1
  let (fracDs, r2) :=
    match r1 with
    | '.' :: r => spanDigits r
    | r => ([], r)
  if intDs.isEmpty && fracDs.isEmpty then none
  else
    let mant : Rat := (digitsToNat 0 intDs : Nat) +
      (digitsToNat 0 fracDs : Nat) / ((10 : Rat) ^ fracDs.length)
    match r2 with
    | [] => some (sign * mant)
    | e :: r3 =>
      if e == 'e' || e == 'E' then
        let (esign, r4) : Bool × List Char :=
          match r3 with
          | '+' :: r => (false, r)
          | '-' :: r => (true, r)
          | r => (false, r)
        let (expDs, r5) := spanDigits r4
        if expDs.isEmpty || !r5.isEmpty then none
        else
          let ex : Nat := digitsToNat 0 expDs
          some (sign * mant * (if esign then 1 / (10 : Rat) ^ ex else (10 : Rat) ^ ex))
      else none

/-- Embeds _to_kg (src lines 109-122): converts a weight to kilograms from
its unit string.  The Python float literal 0.45359237 and the divisions are
modelled as exact rationals. -/
def _to_kg (weight : Rat) (unit : Option String) : Rat :=
  match unit with
  | none => weight
  | some u0 =>
    if strIsEmpty u0 then weight
    else
      let u := pyLower (pyStrip u0)
      if u = "kg" ∨ u = "kgs" ∨ u = "kilogram" ∨ u = "kilograms" then weight
      else if u = "lb" ∨ u = "lbs" ∨ u = "pound" ∨ u = "pounds" then
        weight * (45359237 / 100000000)
      else if u = "g" ∨ u = "gram" ∨ u = "grams" then weight / 1000
      else if u = "jin" then weight * (1 / 2)
      else weight

/-- Spec-side conversion table for claim C3, written from the claim: kg
unchanged, lb family times 0.45359237, gram family divided by 1000, jin
halved, anything unrecognized or missing unchanged, after trimming and
lowercasing the unit. -/
def c3Factor (unit : Option String) : Rat :=
  match unit with
  | none => 1
  | some u0 =>
    if strIsEmpty u0 then 1
    else
      let u := pyLower (pyStrip u0)
      if u = "kg" ∨ u = "kgs" ∨ u = "kilogram" ∨ u = "kilograms" then 1
      else if u = "lb" ∨ u = "lbs" ∨ u = "pound" ∨ u = "pounds" then 45359237 / 100000000
      else if u = "g" ∨ u = "gram" ∨ u = "grams" then 1 / 1000
      else if u = "jin" then 1 / 2
      else 1

/-- Half-to-even rounding of x * m to an integer, the rounding CPython
applies when it converts seconds to whole microseconds and when round()
hits a tie.  Computed on the reduced fraction with integer arithmetic (for
a positive denominator, Euclidean division is floor division), so that the
kernel can evaluate it. -/
def rheScaled (x : Rat) (m : Nat) : Int :=
  let t : Int := x.num * m
  let d : Int := (x.den : Int)
  let q := t.ediv d
  let r := t.emod d
  if 2 * r < d then q
  else if 2 * r > d then q + 1
  else if q % 2 = 0 then q else q + 1

/-- Models round(x, 1): round to one decimal place, ties to even. -/
def round1 (x : Rat) : Rat := (rheScaled x 10 : Rat) / 10

/-- Civil date from days since 1970-01-01 (proleptic Gregorian), the
conversion inside datetime.fromtimestamp. -/
def civilFromDays (z0 : Int) : Int × Nat × Nat :=
  let z := z0 + 719468
  let era := z.ediv 146097
  let doe := (z - era * 146097).toNat
  let yoe := (doe - doe / 1460 + doe / 36524 - doe / 146096) / 365
  let y : Int := (yoe : Int) + era * 400
  let doy := doe - (365 * yoe + yoe / 4 - yoe / 100)
  let mp := (5 * doy + 2) / 153
  let d := doy - (153 * mp + 2) / 5 + 1
  let m := if mp < 10 then mp + 3 else mp - 9
  (if m ≤ 2 then y + 1 else y, m, d)

/-- Days since 1970-01-01 of a civil date (proleptic Gregorian), the
conversion inside the datetime constructor. -/
def daysFromCivil (y0 : Int) (m d : Nat) : Int :=
  let y := if m ≤ 2 then y0 - 1 else y0
  let era := y.ediv 400
  let yoe := (y - era * 400).toNat
  let doy := (153 * (if m > 2 then m - 3 else m + 9) + 2) / 5 + d - 1
  let doe := yoe * 365 + yoe / 4 - yoe / 100 + doy
  era * 146097 + (doe : Int) - 719468

/-- Decimal rendering of a natural number left-padded with zeros to the
given width. -/
def padNum (width n : Nat) : String :=
  let s := toString n
  String.mk (List.replicate (width - s.length) '0') ++ s

/-- Models datetime.isoformat() of an aware UTC datetime given as
microseconds since the epoch (the year zero-padded to four digits as
CPython prints it; datetime itself admits only years 1 to 9999), followed
by the replace of +00:00 with Z that the script applies (String.replace,
like str.replace, rewrites every occurrence; here there is exactly one). -/
def fmtEpochUs (us : Int) : String :=
  let usec := (us.emod 1000000).toNat
  let secs := us.ediv 1000000
  let days := secs.ediv 86400
  let sod := (secs.emod 86400).toNat
  let ymd := civilFromDays days
  let base :=
    (if ymd.1 < 0 then "-" ++ padNum 4 (-ymd.1).toNat else padNum 4 ymd.1.toNat) ++
    "-" ++ padNum 2 ymd.2.1 ++ "-" ++ padNum 2 ymd.2.2 ++ "T" ++
    padNum 2 (sod / 3600) ++ ":" ++ padNum 2 (sod % 3600 / 60) ++ ":" ++
    padNum 2 (sod % 60) ++
    (if usec = 0 then "" else "." ++ padNum 6 usec) ++ "+00:00"
  pyReplace base "+00:00" "Z"

/-- Lowest epoch microsecond value datetime supports (0001-01-01T00:00:00). -/
def minDatetimeUs : Int := -62135596800000000

/-- Highest epoch microsecond value datetime supports
(9999-12-31T23:59:59.999999). -/
def maxDatetimeUs : Int := 253402300799999999

inductive Err where
  | transport (msg : String)
  | auth
  | noDevices
  | deviceNotFound (id : String)
  | noId
  | noMeasurement
  | config
  | timeRange
  | unicodeDecode
  deriving DecidableEq

instance {e a : Type} [DecidableEq e] [DecidableEq a] : DecidableEq (Except e a) := by
  intro x y
  cases x <;> cases y <;>
    first
      | exact isFalse (by intro h; exact Except.noConfusion h)
      | exact decidable_of_iff _ (by rw [Except.error.injEq])
      | exact decidable_of_iff _ (by rw [Except.ok.injEq])

/-- Error message of each embedded error, taken from the strings the script
raises (timeRange stands for the OverflowError datetime raises outside its
year range; CPython words that message differently). -/
def errMessage : Err → String
  | .transport m => m
  | .auth => "Login response did not include an access token"
  | .noDevices => "No devices found in response"
  | .deviceNotFound i => "EUFY_DEVICE_ID=" ++ i ++ " was not found"
  | .noId => "Selected device does not include an id"
  | .noMeasurement => "Could not find a weight value in device data"
  | .config => "TARGET_WEIGHT_KG must be a number"
  | .timeRange => "date value out of range"
  | .unicodeDecode => "utf-8 codec cannot decode the snapshot file"

/-- Numeric branch of _parse_time (src lines 88-92): epoch values above
10,000,000,000 are milliseconds, others seconds (the comparison and the
scaling to microseconds are done on the reduced fraction: for a value in
milliseconds, seconds times a million is the value times a thousand); the
result is formatted as UTC ISO-8601 with a Z suffix.  datetime.fromtimestamp raises (uncaught in
the source) when the instant falls outside year 1..9999, which the model
surfaces as the error timeRange. -/
def parseTimeNum (x : Rat) : Except Err String :=
  let us : Int :=
    if x.num > 10000000000 * (x.den : Int) then rheScaled x 1000
    else rheScaled x 1000000
  if us < minDatetimeUs ∨ us > maxDatetimeUs then .error .timeRange
  else .ok (fmtEpochUs us)

/-- Parses width digits from the front; yields the value and the rest. -/
def takeFixedDigits (width : Nat) (cs : List Char) : Option (Nat × List Char) :=
  let ds := cs.take width
  if ds.length = width && ds.all (fun c => 48 ≤ c.val && c.val ≤ 57) then
    some (digitsToNat 0 ds, cs.drop width)
  else none

/-- Days of each month in the proleptic Gregorian calendar. -/
def daysInMonth (y : Int) (m : Nat) : Nat :=
  if m = 2 then
    if y % 4 = 0 ∧ (y % 100 ≠ 0 ∨ y % 400 = 0) then 29 else 28
  else if m = 4 ∨ m = 6 ∨ m = 9 ∨ m = 11 then 30
  else 31

/-- Fractional-second digits (1 to 6, per the Python 3.11 parser) scaled to
microseconds. -/
def fracToUs (ds : List Char) : Option Nat :=
  if ds.isEmpty || ds.length > 6 then none
  else some (digitsToNat 0 ds * 10 ^ (6 - ds.length))

/-- Models datetime.fromisoformat on the extended format
YYYY-MM-DD[(T or space)HH:MM[:SS[.f{1,6}]][(+ or -)HH:MM[:SS]]], validated
like the CPython parser (year 1..9999, real calendar date, time fields in
range), followed by the conversion to UTC the script performs; the result
is microseconds since the epoch.  none models the ValueError the script
catches and turns into a missing timestamp. -/
def parseIsoToUs (v : String) : Option (Except Err Int) :=
  match takeFixedDigits 4 v.toList with
  | none => none
  | some (y, r1) =>
    match r1 with
    | '-' :: r2 =>
      match takeFixedDigits 2 r2 with
      | none => none
      | some (mo, r3) =>
        match r3 with
        | '-' :: r4 =>
          match takeFixedDigits 2 r4 with
          | none => none
          | some (d, r5) =>
            if y = 0 ∨ mo = 0 ∨ mo > 12 ∨ d = 0 ∨ d > daysInMonth y mo then none
            else
              let dateUs : Int := daysFromCivil y mo d * 86400000000
              match r5 with
              | [] => some (.ok dateUs)
              | sep :: r6 =>
                if sep ≠ 'T' ∧ sep ≠ ' ' then none
                else
                  match takeFixedDigits 2 r6 with
                  | none => none
                  | some (hh, r7) =>
                    match r7 with
                    | ':' :: r8 =>
                      match takeFixedDigits 2 r8 with
                      | none => none
                      | some (mi, r9) =>
                        if hh > 23 ∨ mi > 59 then none
                        else
                          let (ss, usec, rA) :=
                            match r9 with
                            | ':' :: rB =>
                              match takeFixedDigits 2 rB with
                              | none => (none, none, r9)
                              | some (s2, rC) =>
                                match rC with
                                | '.' :: rD =>
                                  let (ds, rE) := spanDigits rD
                                  (some s2, fracToUs ds, rE)
                                | _ => (some s2, some 0, rC)
                            | _ => (some 0, some 0, r9)
                          match ss, usec with
                          | some s2, some u2 =>
                            if s2 > 59 then none
                            else
                              let timeUs : Int := (hh * 3600 + mi * 60 + s2) * 1000000 + u2
                              let naiveUs := dateUs + timeUs
                              match rA with
                              | [] => some (.ok naiveUs)
                              | osign :: rF =>
                                if osign ≠ '+' ∧ osign ≠ '-' then none
                                else
                                  match takeFixedDigits 2 rF with
                                  | none => none
                                  | some (oh, rG) =>
                                    match rG with
                                    | ':' :: rH =>
                                      match takeFixedDigits 2 rH with
                                      | none => none
                                      | some (om, rI) =>
                                        let (os, rJ) :=
                                          match rI with
                                          | ':' :: rK =>
                                            match takeFixedDigits 2 rK with
                                            | none => (none, rI)
                                            | some (o2, rL) => (some o2, rL)
                                          | _ => (some 0, rI)
                                        match os with
                                        | none => none
                                        | some o2 =>
                                          if om > 59 ∨ o2 > 59 ∨ ¬ rJ.isEmpty then none
                                          else
                                            let offUs : Int :=
                                              (oh * 3600 + om * 60 + o2) * 1000000
                                            let utcUs :=
                                              if osign = '-' then naiveUs + offUs
                                              else naiveUs - offUs
                                            if utcUs < minDatetimeUs ∨ utcUs > maxDatetimeUs
                                            then some (.error .timeRange)
                                            else some (.ok utcUs)
                                    | _ => none
                            | _, _ => none
                    | _ => none
        | _ => none
    | _ => none

/-- Embeds _parse_time (src lines 85-106).  Python bools pass the
isinstance((int, float)) test as 0 or 1.  A value of .ok none is a missing
timestamp; .error models the uncaught OverflowError of fromtimestamp or of
the astimezone conversion on out-of-range instants. -/
def _parse_time : JVal → Except Err (Option String)
  | .jnull => .ok none
  | .jbool b => (parseTimeNum (if b then 1 else 0)).map some
  | .jint n => (parseTimeNum n).map some
  | .jfloat q => (parseTimeNum q).map some
  | .jstr s =>
    let v := pyStrip s
    if strIsEmpty v then .ok none
    else if pyIsDigitStr v then (parseTimeNum (digitsToNat 0 v.toList : Nat)).map some
    else
      match parseIsoToUs (pyReplace v "Z" "+00:00") with
      | none => .ok none
      | some (.error e) => .error e
      | some (.ok us) => .ok (some (fmtEpochUs us))
  | _ => .ok none

mutual

/-- Embeds _iter_dicts (src lines 75-83): every nested dict reachable
through dict values and list elements, depth-first, each dict yielded
before its children, dict values in insertion order. -/
def iterDicts : JVal → List PyDict
  | .jobj fs => fs :: iterDictsFields fs
  | .jarr xs => iterDictsList xs
  | _ => []

/-- Dicts nested under each element of a list, in order. -/
def iterDictsList : List JVal → List PyDict
  | [] => []
  | v :: vs => iterDicts v ++ iterDictsList vs

/-- Dicts nested under each value of a dict, in insertion order. -/
def iterDictsFields : List (String × JVal) → List PyDict
  | [] => []
  | p :: rest => iterDicts p.2 ++ iterDictsFields rest

end

/-- Ordered candidate keys for the timestamp (src line 166). -/
def time_keys : List String :=
  ["time", "timestamp", "measureTime", "measuredAt", "created_at", "createdAt", "date"]

/-- Ordered candidate keys for the weight (src line 167). -/
def weight_keys : List String :=
  ["weight", "weight_kg", "weightKg", "body_weight", "bodyWeight"]

/-- Ordered candidate keys for the unit (src line 168). -/
def unit_keys : List String :=
  ["unit", "weight_unit", "weightUnit"]

/-- Weight lookup of src lines 171-182: first key whose value is numeric
(Python bools count, as int subclasses) or a string float() accepts; a
string float() rejects falls through to the next key. -/
def weightOf (node : PyDict) : Option Rat :=
  weight_keys.foldr
    (fun k rest =>
      match dictGet node k with
      | .jbool b => some (if b then 1 else 0)
      | .jint n => some (n : Rat)
      | .jfloat q => some q
      | .jstr s =>
        match pyFloatOfString s with
        | some q => some q
        | none => rest
      | _ => rest)
    none

/-- Unit lookup of src lines 187-192: first key holding a string that is
nonempty after stripping; the unstripped string is kept. -/
def unitOf (node : PyDict) : Option String :=
  unit_keys.foldr
    (fun k rest =>
      match dictGet node k with
      | .jstr s => if strIsEmpty (pyStrip s) then rest else some s
      | _ => rest)
    none

/-- Timestamp lookup of src lines 194-198: first key whose value
_parse_time turns into a timestamp; a raised OverflowError propagates. -/
def timeOf (node : PyDict) : Except Err (Option String) :=
  time_keys.foldr
    (fun k rest =>
      match _parse_time (dictGet node k) with
      | .error e => .error e
      | .ok (some t) => .ok (some t)
      | .ok none => rest)
    (.ok none)

/-- One object of the traversal as the loop body of src lines 170-208 sees
it: none when no weight key parses (the object is skipped), otherwise the
kilogram-converted weight and the optional timestamp. -/
def candidateOf (node : PyDict) : Except Err (Option (Rat × Option String)) :=
  match weightOf node with
  | none => .ok none
  | some w =>
    match timeOf node with
    | .error e => .error e
    | .ok t => .ok (some (_to_kg w (unitOf node), t))

/-- The loop of src lines 170-208 over the traversed dicts, carrying the
best (weight, timestamp) pair seen so far. -/
def extractLoop (best : Option (Rat × Option String)) :
    List PyDict → Except Err (Option (Rat × Option String))
  | [] => .ok best
  | node :: rest =>
    match candidateOf node with
    | .error e => .error e
    | .ok none => extractLoop best rest
    | .ok (some (w, t)) =>
      match best with
      | none => extractLoop (some (w, t)) rest
      | some (bw, bt) =>
        let replace :=
          match t, bt with
          | some _, none => true
          | some ts, some bs => pyStrLt bs ts
          | none, _ => false
        if replace then extractLoop (some (w, t)) rest
        else extractLoop (some (bw, bt)) rest

/-- Embeds _extract_latest_weight (src lines 162-213). -/
def _extract_latest_weight (dataJson : JVal) : Except Err (Rat × Option String) :=
  match extractLoop none (iterDicts dataJson) with
  | .error e => .error e
  | .ok none => .error .noMeasurement
  | .ok (some r) => .ok r

/-- Spec-side selection policy for claim C1, written from the claim: the
first qualifying object becomes the initial best; a later candidate
replaces the best exactly when it has a timestamp and either the best has
none or the new timestamp strictly exceeds the best one as a string; a
candidate without a timestamp never replaces an existing best. -/
def c1Policy (best : Option (Rat × Option String)) (c : Rat × Option String) :
    Option (Rat × Option String) :=
  match best with
  | none => some c
  | some b =>
    match c.2 with
    | none => some b
    | some ts =>
      match b.2 with
      | none => some c
      | some bs => if pyStrLt bs ts then some c else some b

/-- The qualifying candidates of a traversal in order, stopping at the
first object whose timestamp lookup raises. -/
def candList : List PyDict → Except Err (List (Rat × Option String))
  | [] => .ok []
  | node :: rest =>
    match candidateOf node with
    | .error e => .error e
    | .ok none => candList rest
    | .ok (some c) =>
      match candList rest with
      | .error e => .error e
      | .ok cs => .ok (c :: cs)

/-- Models str(value) for the id comparison: CPython renderings of the
scalar values (str of a float or container is approximated; the claims
never force those renderings, and both sides of each theorem use the same
function). -/
def pyStr : JVal → String
  | .jnull => "None"
  | .jbool b => if b then "True" else "False"
  | .jint n => toString n
  | .jfloat q => toString q.num ++ (if q.den = 1 then ".0" else "/" ++ toString q.den)
  | .jstr s => s
  | .jarr _ => "[...]"
  | .jobj _ => "{...}"

/-- The id of a device record via the chain
d.get(id) or d.get(device_id) or d.get(deviceId) (src lines 141 and 279):
Python or returns the first truthy operand, else the last operand. -/
def deviceIdOf (d : PyDict) : JVal :=
  let a := dictGet d "id"
  if pyTruthy a then a
  else
    let b := dictGet d "device_id"
    if pyTruthy b then b else dictGet d "deviceId"

/-- Joined lowercased string-valued fields of a device, as built on src
line 148 (str(v) of a str is the str itself; values in insertion order,
joined with single spaces). -/
def deviceTexts (d : PyDict) : String :=
  pyJoin " "
    (d.filterMap (fun p => match p.2 with | JVal.jstr s => some (pyLower s) | _ => none))

/-- Keyword score of a device (src lines 149-155). -/
def deviceScore (d : PyDict) : Nat :=
  (if pyStrContains (deviceTexts d) "scale" then 4 else 0) +
  (if pyStrContains (deviceTexts d) "health" then 2 else 0) +
  (if pyStrContains (deviceTexts d) "body" then 1 else 0)

/-- Stable insertion into a list sorted by descending key: an inserted
element goes after every earlier element with a key at least as large. -/
def insertDesc (x : Nat × PyDict) : List (Nat × PyDict) → List (Nat × PyDict)
  | [] => [x]
  | y :: rest => if x.1 < y.1 then y :: insertDesc x rest else x :: y :: rest

/-- Stable sort by descending key, modelling
scored.sort(key, reverse=True) on src line 158: a stable sort is
extensionally unique, so insertion sort stands in for timsort. -/
def sortDesc : List (Nat × PyDict) → List (Nat × PyDict)
  | [] => []
  | x :: rest => insertDesc x (sortDesc rest)

/-- The devices list normalized from the response (src lines 126-134): a
list keeps its dict entries; a dict is searched for the first of the keys
data, devices, list, items holding a list, whose dict entries are kept. -/
def normalizeDevices (devicesJson : JVal) : List PyDict :=
  match devicesJson with
  | .jarr xs => xs.filterMap (fun v => match v with | JVal.jobj fs => some fs | _ => none)
  | .jobj fs =>
    match ["data", "devices", "list", "items"].foldr
        (fun k rest =>
          match dictGet fs k with
          | .jarr xs => some xs
          | _ => rest)
        none with
    | some xs => xs.filterMap (fun v => match v with | JVal.jobj fs2 => some fs2 | _ => none)
    | none => []
  | _ => []

/-- The scoring branch of _pick_scale_device (src lines 146-159). -/
def pickByScore (devices : List PyDict) : Except Err PyDict :=
  match sortDesc (devices.map (fun d => (deviceScore d, d))) with
  | p :: _ => .ok p.2
  | [] => .error .noDevices

/-- Embeds _pick_scale_device (src lines 125-159), with the
EUFY_DEVICE_ID override as an argument (None or the empty string is falsy,
so the if on src line 139 then takes the scoring path). -/
def _pick_scale_device (force : Option String) (devicesJson : JVal) : Except Err PyDict :=
  match normalizeDevices devicesJson with
  | [] => .error .noDevices
  | d0 :: ds =>
    match force with
    | some f =>
      if strIsEmpty f then pickByScore (d0 :: ds)
      else
        match (d0 :: ds).find? (fun d => pyStr (deviceIdOf d) == f) with
        | some d => .ok d
        | none => .error (.deviceNotFound f)
    | none => pickByScore (d0 :: ds)

/-- Embeds _extract_token (src lines 54-72): the first nonempty string
among the top-level access_token and token fields and, under a dict-valued
data field, its access_token, token and auth_token fields. -/
def _extract_token (loginJson : JVal) : Except Err String :=
  let cands : List JVal :=
    match loginJson with
    | .jobj fs =>
      [dictGet fs "access_token", dictGet fs "token"] ++
      (match dictGet fs "data" with
       | .jobj ds => [dictGet ds "access_token", dictGet ds "token", dictGet ds "auth_token"]
       | _ => [])
    | _ => []
  match cands.find? (fun c => match c with | JVal.jstr s => !(strIsEmpty s) | _ => false) with
  | some (.jstr s) => .ok s
  | _ => .error .auth

/-- What the snapshot file at the output path holds before a run: the
file may be missing, unreadable (OSError on read), hold bytes that are not
valid UTF-8 (read_text raises UnicodeDecodeError), hold text that is not
JSON (JSONDecodeError), or hold a JSON value. -/
inductive FileContent where
  | absent
  | unreadable
  | notUtf8
  | notJson
  | json (v : JVal)

/-- Embeds _read_previous_snapshot (src lines 216-226): a missing or
unreadable file, text that is not JSON and a JSON value that is not an
object all yield the empty dict; only a JSON object is returned.  The
except clause of the source catches only OSError and JSONDecodeError, so a
file whose bytes are not valid UTF-8 raises an uncaught
UnicodeDecodeError, modelled as the error unicodeDecode. -/
def _read_previous_snapshot : FileContent → Except Err PyDict
  | .notUtf8 => .error .unicodeDecode
  | .json (.jobj d) => .ok d
  | _ => .ok []

/-- Embeds _to_float (src lines 229-237): numbers pass through (Python
bools count, as int subclasses), strings go through float(), everything
else is None. -/
def _to_float : JVal → Option Rat
  | .jbool b => some (if b then 1 else 0)
  | .jint n => some (n : Rat)
  | .jfloat q => some q
  | .jstr s => pyFloatOfString s
  | _ => none

/-- Embeds _get_target_weight_kg (src lines 240-249), with the
TARGET_WEIGHT_KG setting as an argument: 55.0 when unset or blank after
stripping, the parsed number when float() accepts the stripped value, and
a ConfigError otherwise. -/
def _get_target_weight_kg (raw : Option String) : Except Err Rat :=
  match raw with
  | none => .ok 55
  | some r =>
    let value := pyStrip r
    if strIsEmpty value then .ok 55
    else
      match pyFloatOfString value with
      | some q => .ok q
      | none => .error .config

/-- The id check of src lines 279-281: the or-chained id of the selected
device must be truthy, else the run aborts with the noId error. -/
def checkDeviceId (device : PyDict) : Except Err JVal :=
  let did := deviceIdOf device
  if pyTruthy did then .ok did else .error .noId

/-- The snapshot payload built on src lines 287-301 from the previous
snapshot dict, the extracted weight, the target weight, the extracted
timestamp and the current time: initialWeightKg is the previous value when
_to_float parses it, else the current weight, and every weight field is
rounded to one decimal place. -/
def buildPayload (previous : PyDict) (weight_kg target_weight_kg : Rat)
    (measured_at : Option String) (now_iso : String) : PyDict :=
  let previous_initial := _to_float (dictGet previous "initialWeightKg")
  let initial_weight_kg := match previous_initial with | some v => v | none => weight_kg
  [("source", JVal.jstr "eufy"),
   ("weightKg", JVal.jfloat (round1 weight_kg)),
   ("targetWeightKg", JVal.jfloat (round1 target_weight_kg)),
   ("initialWeightKg", JVal.jfloat (round1 initial_weight_kg)),
   ("measuredAt", match measured_at with | some s => JVal.jstr s | none => JVal.jnull),
   ("updatedAt", JVal.jstr now_iso),
   ("status", JVal.jstr "ok")]

/-- The outside world as the embedded main sees it: credentials and
settings from the environment, the current time, and the three network
responses (an error models a raised TransportError). -/
structure Env where
  email : Option String
  password : Option String
  clientId : Option String
  clientSecret : Option String
  forceDeviceId : Option String
  targetRaw : Option String
  nowIso : String
  loginResp : Except String JVal
  devicesResp : Except String JVal
  dataResp : String → Except String JVal

/-- Env truthiness of an optional environment string: unset or empty is
falsy, as in the credential check on src line 255. -/
def envTruthy : Option String → Bool
  | none => false
  | some s => !(strIsEmpty s)

/-- Embeds main (src lines 252-309) over an explicit snapshot-file state:
the pair of the exit outcome (ok models a return, error a raised error)
and the snapshot path content after the run.  The only write happens at
the end of a fully successful run, via the temporary sibling and replace of
src lines 304-306, which leave the output path holding the new payload. -/
def mainRun (env : Env) (fs : FileContent) : Except Err Nat × FileContent :=
  if ¬ (envTruthy env.email ∧ envTruthy env.password ∧
        envTruthy env.clientId ∧ envTruthy env.clientSecret) then
    (.ok 1, fs)
  else
    match env.loginResp with
    | .error m => (.error (.transport m), fs)
    | .ok loginJson =>
      match _extract_token loginJson with
      | .error e => (.error e, fs)
      | .ok _token =>
        match env.devicesResp with
        | .error m => (.error (.transport m), fs)
        | .ok devicesJson =>
          match _pick_scale_device env.forceDeviceId devicesJson with
          | .error e => (.error e, fs)
          | .ok device =>
            match checkDeviceId device with
            | .error e => (.error e, fs)
            | .ok did =>
              match env.dataResp (pyStr did) with
              | .error m => (.error (.transport m), fs)
              | .ok dataJson =>
                match _extract_latest_weight dataJson with
                | .error e => (.error e, fs)
                | .ok (weight_kg, measured_at) =>
                  match _read_previous_snapshot fs with
                  | .error e => (.error e, fs)
                  | .ok previous =>
                    match _get_target_weight_kg env.targetRaw with
                    | .error e => (.error e, fs)
                    | .ok target =>
                      (.ok 0, .json (.jobj
                        (buildPayload previous weight_kg target measured_at env.nowIso)))

/-- Spec-side maximum score of a scored device list (claim C4). -/
def c4MaxScore (l : List (Nat × PyDict)) : Nat := l.foldr (fun x m => max x.1 m) 0

/-- Spec-side selection for claim C4: the first device attaining the
maximum score, over the devices scored as the claim describes. -/
def c4Selected (devs : List PyDict) : Option PyDict :=
  let scored := devs.map (fun d => (deviceScore d, d))
  (scored.find? (fun p => p.1 == c4MaxScore scored)).map (fun p => p.2)


/-- Concrete device list for the C4 witness: one device mentioning body,
one mentioning scale and health. -/
def c4WitnessDevices : List PyDict :=
  [[("name", JVal.jstr "Body Tracker")],
   [("name", JVal.jstr "Smart Scale"), ("type", JVal.jstr "health")]]

/-- Concrete environment for the C8 witness: credentials present, the
login succeeds with a token-free body, so the run raises AuthError. -/
def c8Env0 : Env :=
  { email := some "a", password := some "b", clientId := some "c", clientSecret := some "d",
    forceDeviceId := none, targetRaw := none, nowIso := "t",
    loginResp := .ok (.jobj []), devicesResp := .error "boom",
    dataResp := fun _ => .error "boom" }

/-- Concrete prior snapshot content for the C8 witness. -/
def c8Fs0 : FileContent := .json (.jobj [("old", JVal.jnull)])

/-- The loop of _extract_latest_weight equals a left fold of the spec
selection policy over the qualifying candidates, from any starting best. -/
theorem extractLoop_eq_fold (l : List PyDict) :
    ∀ best, extractLoop best l =
      (candList l).map (fun cs => cs.foldl c1Policy best) := by
  induction l with
  | nil => intro best; rfl
  | cons node rest ih =>
    intro best
    rw [extractLoop, candList]
    cases candidateOf node with
    | error e => rfl
    | ok copt =>
      cases copt with
      | none => dsimp only; exact ih best
      | some c =>
        obtain ⟨w, t⟩ := c
        dsimp only
        cases best with
        | none =>
          rw [ih (some (w, t))]
          cases candList rest <;> simp [Except.map, c1Policy]
        | some b =>
          obtain ⟨bw, bt⟩ := b
          dsimp only
          have hstep : (if (match t, bt with
                | some _, none => true
                | some ts, some bs => pyStrLt bs ts
                | none, _ => false) = true then some (w, t) else some (bw, bt)) =
              c1Policy (some (bw, bt)) (w, t) := by
            cases t with
            | none => rfl
            | some ts =>
              cases bt with
              | none => rfl
              | some bs => cases h : pyStrLt bs ts <;> simp [c1Policy, h]
          rw [ih (some (w, t)), ih (some (bw, bt))]
          cases candList rest with
          | error e => dsimp only [Except.map]; split <;> rfl
          | ok cs =>
            dsimp only [Except.map, List.foldl]
            rw [← hstep]
            split <;> rfl

theorem insertDesc_head (x : Nat × PyDict) (l : List (Nat × PyDict)) :
    (insertDesc x l).head? = some (match l.head? with
      | none => x
      | some y => if x.1 < y.1 then y else x) := by
  cases l with
  | nil => rfl
  | cons y rest =>
    rw [insertDesc]
    split
    · simp_all
    · rename_i h
      simp only [List.head?_cons]
      rw [if_neg (by omega)]

theorem sortDesc_head (l : List (Nat × PyDict)) :
    (sortDesc l).head? = l.find? (fun p => p.1 == c4MaxScore l) := by
  induction l with
  | nil => rfl
  | cons x rest ih =>
    rw [sortDesc, insertDesc_head]
    cases hy : (sortDesc rest).head? with
    | none =>
      have hnil : sortDesc rest = [] := by
        cases hs : sortDesc rest with
        | nil => rfl
        | cons a b => rw [hs] at hy; exact absurd hy (by simp)
      have hrest : rest = [] := by
        cases rest with
        | nil => rfl
        | cons r rs =>
          rw [sortDesc] at hnil
          cases hs2 : insertDesc r (sortDesc rs) with
          | nil =>
            exfalso
            have : (insertDesc r (sortDesc rs)).head?.isSome := by
              rw [insertDesc_head]; rfl
            rw [hs2] at this
            simp at this
          | cons a b => rw [hs2] at hnil; exact absurd hnil (by simp)
      subst hrest
      simp [c4MaxScore, List.find?]
    | some y =>
      have hfind : rest.find? (fun p => p.1 == c4MaxScore rest) = some y := by
        rw [← ih, hy]
      have hy1 : y.1 = c4MaxScore rest := by
        have := List.find?_some hfind
        simpa using this
      rw [List.find?_cons]
      by_cases hcmp : x.1 < y.1
      · have hM : c4MaxScore (x :: rest) = c4MaxScore rest := by
          show max x.1 (c4MaxScore rest) = c4MaxScore rest
          omega
        have hpx : (x.1 == c4MaxScore (x :: rest)) = false := by
          rw [hM]
          simp
          omega
        rw [hpx]
        dsimp only
        rw [if_pos hcmp, hM, hfind]
      · have hM : c4MaxScore (x :: rest) = x.1 := by
          show max x.1 (c4MaxScore rest) = x.1
          omega
        have hpx : (x.1 == c4MaxScore (x :: rest)) = true := by
          rw [hM]
          simp
        rw [hpx]
        dsimp only
        rw [if_neg hcmp]

theorem normalizeDevices_map_jobj (devs : List PyDict) :
    normalizeDevices (.jarr (devs.map JVal.jobj)) = devs := by
  rw [normalizeDevices]
  induction devs with
  | nil => rfl
  | cons d ds ih => simpa using ih


/-- Half-even scaling of an integer-valued rational is plain
multiplication. -/
theorem rheScaled_intCast (t : Int) (m : Nat) : rheScaled ((t : Rat)) m = t * m := by
  unfold rheScaled
  rw [Rat.num_intCast, Rat.den_intCast]
  dsimp only
  rw [Nat.cast_one, show (t * (m : Int)).ediv 1 = t * m from Int.ediv_one _,
    show (t * (m : Int)).emod 1 = 0 from Int.emod_one _]
  norm_num

/-- The embedded main leaves the snapshot state unchanged unless it returns
the success exit code. -/
theorem mainRun_frame (env : Env) (fs : FileContent) :
    (mainRun env fs).2 = fs ∨ (mainRun env fs).1 = .ok 0 := by
  unfold mainRun
  repeat' split
  all_goals first | exact Or.inl rfl | exact Or.inr rfl

/-- C1: for every input JSON payload, the first object of the depth-first
traversal that yields a parseable weight becomes the initial best
candidate, and a later qualifying object replaces the current best exactly
when it has a parseable timestamp and either the current best has none or
the new timestamp strictly exceeds it as a string; an object without a
timestamp never replaces an existing best.  Stated as: the extractor equals
the fold of the spec-side policy c1Policy over the qualifying candidates in
traversal order (errors model the uncaught overflow of absurd numeric
timestamps). -/
theorem c1_measurement_selection_policy (dataJson : JVal) :
    _extract_latest_weight dataJson =
      match candList (iterDicts dataJson) with
      | .error e => .error e
      | .ok cs =>
        match cs.foldl c1Policy none with
        | some r => .ok r
        | none => .error .noMeasurement := by
  rw [_extract_latest_weight, extractLoop_eq_fold]
  cases candList (iterDicts dataJson) with
  | error e => rfl
  | ok cs =>
    dsimp only [Except.map]
    cases List.foldl c1Policy none cs <;> rfl

/-- C2 counterexample: the claim quantifies over every Unix timestamp in
seconds, but at t = 1 the script parses 1 to 00:00:01 and 1000 (not above
the millisecond threshold) to 00:16:40, two different strings. -/
theorem c2_counterexample_small_timestamp :
    _parse_time (.jint 1) ≠ _parse_time (.jint 1000) := by decide

/-- C2 amended: for a Unix second timestamp t with 10,000,000 < t and
t less than or equal to 10,000,000,000 (so that t itself falls on the
seconds side of the threshold and t times 1000 on the milliseconds side),
parsing the seconds value and its millisecond equivalent produce the same
ISO-8601 UTC string. -/
theorem c2_roundtrip_in_threshold_range (t : Int)
    (h1 : 10000000 < t) (h2 : t ≤ 10000000000) :
    _parse_time (.jint t) = _parse_time (.jint (t * 1000)) := by
  show (parseTimeNum ((t : Rat))).map some = (parseTimeNum (((t * 1000 : Int) : Rat))).map some
  have e1 : parseTimeNum ((t : Rat)) = parseTimeNum (((t * 1000 : Int) : Rat)) := by
    unfold parseTimeNum
    simp only [rheScaled_intCast, Rat.num_intCast, Rat.den_intCast]
    push_cast
    rw [if_pos (show (10000000000 : Int) < t * 1000 by omega),
      if_neg (show ¬ ((10000000000 : Int) < t) by omega)]
    rw [show t * 1000 * 1000 = t * 1000000 by ring]
  rw [e1]

/-- C2 witness: the amended round trip at the concrete epoch second
1,700,000,000. -/
theorem c2_roundtrip_witness :
    _parse_time (.jint 1700000000) = _parse_time (.jint (1700000000 * 1000)) :=
  c2_roundtrip_in_threshold_range 1700000000 (by norm_num) (by norm_num)

/-- C3: the kilogram conversion multiplies the weight by the factor of the
claim table (1 for kg and for unrecognized or missing units, 0.45359237
for the pound family, 1/1000 for the gram family, 1/2 for jin), with unit
matching case-insensitive after trimming; in particular 1 lb is exactly
0.45359237 kg, 1 jin is 0.5 kg and 1000 g is 1 kg. -/
theorem c3_unit_conversion :
    (∀ (w : Rat) (u : Option String), _to_kg w u = w * c3Factor u) ∧
    _to_kg 1 (some "lb") = 45359237 / 100000000 ∧
    _to_kg 1 (some "jin") = 1 / 2 ∧
    _to_kg 1000 (some "g") = 1 ∧
    _to_kg 1 (some "  LB ") = 45359237 / 100000000 := by
  refine ⟨?_, by simp +decide [_to_kg], by simp +decide [_to_kg],
    by simp +decide [_to_kg], by simp +decide [_to_kg]⟩
  intro w u
  cases u with
  | none => simp [_to_kg, c3Factor]
  | some u0 =>
    unfold _to_kg c3Factor
    dsimp only
    cases h0 : strIsEmpty u0
    · simp only [h0, Bool.false_eq_true, if_false]
      split_ifs <;> first | rfl | ring
    · simp only [h0, if_true, mul_one]

/-- C4: with no override and a nonempty device list, the device picker
returns the first device attaining the maximum keyword score, where the
score awards 4 for scale, 2 for health and 1 for body found in the joined
lowercased string fields. -/
theorem c4_device_scoring_first_max (devs : List PyDict) (h : devs ≠ []) :
    ∃ d, c4Selected devs = some d ∧
      _pick_scale_device none (.jarr (devs.map JVal.jobj)) = .ok d := by
  rw [_pick_scale_device, normalizeDevices_map_jobj]
  cases devs with
  | nil => exact absurd rfl h
  | cons d0 ds =>
    dsimp only
    rw [pickByScore]
    have hhead := sortDesc_head (((d0 :: ds).map (fun d => (deviceScore d, d))))
    cases hs : sortDesc (((d0 :: ds)).map (fun d => (deviceScore d, d))) with
    | nil =>
      exfalso
      rw [List.map_cons, sortDesc] at hs
      have hsome : (insertDesc (deviceScore d0, d0)
          (sortDesc (ds.map (fun d => (deviceScore d, d))))).head?.isSome := by
        rw [insertDesc_head]; rfl
      rw [hs] at hsome
      simp at hsome
    | cons p tail =>
      refine ⟨p.2, ?_, rfl⟩
      rw [c4Selected]
      rw [hs] at hhead
      simp only [List.head?_cons] at hhead
      rw [← hhead]
      rfl

/-- C4 witness: between a body-only device and a scale-and-health device
the picker selects the latter (score 6 against 1). -/
theorem c4_device_scoring_witness :
    _pick_scale_device none (.jarr (c4WitnessDevices.map JVal.jobj)) =
      .ok [("name", JVal.jstr "Smart Scale"), ("type", JVal.jstr "health")] := by
  obtain ⟨d, hsel, hpick⟩ :=
    c4_device_scoring_first_max c4WitnessDevices (List.cons_ne_nil _ _)
  have h2 : c4Selected c4WitnessDevices =
      some [("name", JVal.jstr "Smart Scale"), ("type", JVal.jstr "health")] := rfl
  have hd : [("name", JVal.jstr "Smart Scale"), ("type", JVal.jstr "health")] = d :=
    Option.some.inj (h2.symm.trans hsel)
  rw [← hd] at hpick
  exact hpick

/-- C5: with a nonempty override id and a nonempty device list, the picker
returns the first device whose or-chained id field (id, then device_id,
then deviceId, skipping falsy values as Python or does) stringifies to an
exact match with the override, and fails with DeviceNotFoundError when no
device matches. -/
theorem c5_override_first_match (f : String) (devs : List PyDict)
    (hf : strIsEmpty f = false) (hd : devs ≠ []) :
    _pick_scale_device (some f) (.jarr (devs.map JVal.jobj)) =
      match devs.find? (fun d => pyStr (deviceIdOf d) == f) with
      | some d => .ok d
      | none => .error (.deviceNotFound f) := by
  rw [_pick_scale_device, normalizeDevices_map_jobj]
  cases devs with
  | nil => exact absurd rfl hd
  | cons d0 ds =>
    dsimp only
    simp only [hf, Bool.false_eq_true, if_false]

/-- C5 witness: the override 7 selects the device whose integer id
stringifies to 7, and an absent id yields DeviceNotFoundError. -/
theorem c5_override_witness :
    _pick_scale_device (some "7") (.jarr ([[("id", JVal.jint 7)]].map JVal.jobj)) =
      .ok [("id", JVal.jint 7)] ∧
    _pick_scale_device (some "9") (.jarr ([[("id", JVal.jint 7)]].map JVal.jobj)) =
      .error (.deviceNotFound "9") :=
  ⟨(c5_override_first_match "7" [[("id", JVal.jint 7)]] rfl (List.cons_ne_nil _ _)).trans rfl,
   (c5_override_first_match "9" [[("id", JVal.jint 7)]] rfl (List.cons_ne_nil _ _)).trans rfl⟩

/-- C6: in the written snapshot the initialWeightKg field carries the
previous snapshot value whenever that value parses as a number (as number
or numeric string), and the newly extracted weight otherwise (including
when no previous snapshot exists, whose empty dict has no parseable
value); every weight field of the output is rounded to one decimal
place. -/
theorem c6_initial_weight_stickiness (previous : PyDict) (w t : Rat)
    (mt : Option String) (now : String) :
    (∀ v, _to_float (dictGet previous "initialWeightKg") = some v →
      dictGet (buildPayload previous w t mt now) "initialWeightKg" = .jfloat (round1 v)) ∧
    (_to_float (dictGet previous "initialWeightKg") = none →
      dictGet (buildPayload previous w t mt now) "initialWeightKg" = .jfloat (round1 w)) ∧
    dictGet (buildPayload previous w t mt now) "weightKg" = .jfloat (round1 w) ∧
    dictGet (buildPayload previous w t mt now) "targetWeightKg" = .jfloat (round1 t) := by
  have base : dictGet (buildPayload previous w t mt now) "initialWeightKg" =
      .jfloat (round1 (match _to_float (dictGet previous "initialWeightKg") with
        | some v => v
        | none => w)) := rfl
  refine ⟨?_, ?_, rfl, rfl⟩
  · intro v hv
    rw [base, hv]
  · intro hv
    rw [base, hv]

/-- C7 counterexample: the claim says the target weight defaults to 55.0
when the setting is unparsable, but at the explicitly set non-numeric
value abc the script raises ConfigError instead of returning the
default. -/
theorem c7_counterexample_unparsable_raises :
    _get_target_weight_kg (some "abc") ≠ .ok 55 := by decide

/-- C7 amended: the target weight defaults to 55.0 when the setting is
unset or blank after stripping; a set, non-blank value returns its parsed
number when float() accepts it and fails with ConfigError when it does
not. -/
theorem c7_target_weight_default :
    (_get_target_weight_kg none = .ok 55) ∧
    (∀ r, strIsEmpty (pyStrip r) = true → _get_target_weight_kg (some r) = .ok 55) ∧
    (∀ r q, strIsEmpty (pyStrip r) = false → pyFloatOfString (pyStrip r) = some q →
      _get_target_weight_kg (some r) = .ok q) ∧
    (∀ r, strIsEmpty (pyStrip r) = false → pyFloatOfString (pyStrip r) = none →
      _get_target_weight_kg (some r) = .error .config) := by
  refine ⟨rfl, ?_, ?_, ?_⟩
  · intro r h
    unfold _get_target_weight_kg
    simp only [h, if_true]
  · intro r q h hq
    unfold _get_target_weight_kg
    simp only [h, Bool.false_eq_true, if_false, hq]
  · intro r h hq
    unfold _get_target_weight_kg
    simp only [h, Bool.false_eq_true, if_false, hq]

/-- C8: whenever any pipeline step raises (transport failure, missing
token, no devices, device not found, falsy device id, no measurement,
invalid target weight), the embedded main leaves the snapshot file state
exactly as it was: no write happens on an aborted run. -/
theorem c8_no_write_on_error (env : Env) (fs : FileContent) (e : Err)
    (h : (mainRun env fs).1 = .error e) : (mainRun env fs).2 = fs := by
  rcases mainRun_frame env fs with hl | hr
  · exact hl
  · rw [hr] at h
    exact Except.noConfusion h

/-- C8 witness: a run whose login response carries no token aborts with
AuthError and leaves the previously persisted snapshot content in
place. -/
theorem c8_no_write_witness :
    (mainRun c8Env0 c8Fs0).1 = .error .auth ∧ (mainRun c8Env0 c8Fs0).2 = c8Fs0 :=
  ⟨rfl, c8_no_write_on_error c8Env0 c8Fs0 .auth rfl⟩

/-- C9 counterexample: the claim says the reader never raises and returns
the empty record for every unreadable file, but a file whose bytes are not
valid UTF-8 makes read_text raise UnicodeDecodeError, which the except
clause (OSError, JSONDecodeError) does not catch, so the reader raises
instead of returning the empty record. -/
theorem c9_counterexample_non_utf8 :
    _read_previous_snapshot .notUtf8 = .error .unicodeDecode ∧
    _read_previous_snapshot .notUtf8 ≠ .ok [] :=
  ⟨rfl, fun h => Except.noConfusion h⟩

/-- C9 amended: reading the previous snapshot yields the empty record when
the file is missing, unreadable (OSError), or holds text that is not valid
JSON, and also when it holds valid JSON whose top level is not an object
(a list, string, number, boolean or null); only a JSON object is returned.
The reader is not raise-free: a file whose bytes are not valid UTF-8
raises an uncaught UnicodeDecodeError. -/
theorem c9_previous_snapshot_best_effort :
    (_read_previous_snapshot .absent = .ok []) ∧
    (_read_previous_snapshot .unreadable = .ok []) ∧
    (_read_previous_snapshot .notJson = .ok []) ∧
    (∀ xs, _read_previous_snapshot (.json (.jarr xs)) = .ok []) ∧
    (∀ s, _read_previous_snapshot (.json (.jstr s)) = .ok []) ∧
    (∀ n, _read_previous_snapshot (.json (.jint n)) = .ok []) ∧
    (∀ q, _read_previous_snapshot (.json (.jfloat q)) = .ok []) ∧
    (∀ b, _read_previous_snapshot (.json (.jbool b)) = .ok []) ∧
    (_read_previous_snapshot (.json .jnull) = .ok []) ∧
    (∀ d, _read_previous_snapshot (.json (.jobj d)) = .ok d) ∧
    (_read_previous_snapshot .notUtf8 = .error .unicodeDecode) :=
  ⟨rfl, rfl, rfl, fun _ => rfl, fun _ => rfl, fun _ => rfl, fun _ => rfl,
    fun _ => rfl, rfl, fun _ => rfl, rfl⟩

/-- C10: after device selection, the run aborts with the error whose
message reads Selected device does not include an id exactly when the
or-chained value under id, device_id and deviceId is falsy (missing, None,
zero, empty string and so on); in particular a device whose id is 0 or the
empty string is rejected even though it has an id field. -/
theorem c10_falsy_device_id_rejected (d : PyDict) :
    (checkDeviceId d = .error .noId ↔ pyTruthy (deviceIdOf d) = false) ∧
    checkDeviceId [("id", JVal.jint 0)] = .error .noId ∧
    checkDeviceId [("id", JVal.jstr "")] = .error .noId ∧
    errMessage .noId = "Selected device does not include an id" := by
  refine ⟨?_, rfl, rfl, rfl⟩
  unfold checkDeviceId
  cases h : pyTruthy (deviceIdOf d) <;> simp [h]
